import Mathlib

/-!
Verification of the consumer host of Azert-Software/rabbitmq
(src/consumer/host.go) against its natural-language specification.

The embedding models the message-handling pipeline, the middleware chain
builder, the connect retry loop, the dead-letter watchdog loop, the
shutdown path and the per-queue consumption task of host.go.  Handlers
are modelled as pure functions from a delivery to a trace of effects
(log events, acknowledgement outcomes, and an optional escaping panic),
so that the Go code's side effects become inspectable values.
-/

/-- Go `error` values are modelled by their message string
(`errors.New(t)` yields the error with message `t`). -/
abbrev GoError := String

/-- A value passed to Go `panic`: a string, an `error`, or anything else
(host.go lines 274-281 distinguish exactly these three cases). -/
inductive PanicValue where
  | str (s : String)
  | err (e : GoError)
  | other
deriving DecidableEq

/-- The fields of `amqp.Delivery` that host.go reads: the routing key and
the correlation id (used in `errorHandler`'s log line). -/
structure Delivery where
  routingKey : String
  correlationId : String
deriving DecidableEq

/-- An acknowledgement outcome produced on a delivery:
`d.Ack(multiple)` or `d.Nack(multiple, requeue)`. -/
inductive Outcome where
  | ack (multiple : Bool)
  | nack (multiple : Bool) (requeue : Bool)
deriving DecidableEq

/-- Log events emitted by the pipeline code of host.go. -/
inductive LogEvent where
  /-- the `log.Infof("error sending message with key %s and correlationid %v. Error: %s", ...)`
  line of `errorHandler` (host.go line 302) -/
  | errorKeyLog (routingKey : String) (correlationId : String) (errMsg : String)
  /-- the `log.Errorf("panic handler recovered from unexpected panic, error: %s", err)`
  line of `panicHandler` (host.go line 282) -/
  | panicLog (errMsg : String)
  /-- the `log.Debugf("stack: %s", debug.Stack())` line of `panicHandler`
  (host.go line 283) -/
  | stackTrace
  /-- a log line emitted by user middleware (used to observe execution order) -/
  | tag (t : String)
deriving DecidableEq

/-- The observable behaviour of one `HandlerFunc` invocation on a delivery:
the log lines it emitted, the acknowledgement outcomes it produced on the
delivery, and `panicVal = some v` when it ended in an uncaught panic
carrying `v` (in which case `log` and `outs` are the effects that happened
before the panic). -/
structure HRes where
  log : List LogEvent
  outs : List Outcome
  panicVal : Option PanicValue
deriving DecidableEq

/-- Modelled from the spec: `HandlerFunc` (a handler taking a context and a
delivery, returning nothing) is declared outside src/; its observable
behaviour on one delivery is an `HRes` trace.  The context argument carries
no information used by host.go and is dropped. -/
def HandlerFunc := Delivery → HRes

/-- The result of one invocation of a business keyed handler: it returns a
Go error (possibly nil) or panics with some value. -/
inductive KOut where
  | ret (e : Option GoError)
  | panicked (v : PanicValue)
deriving DecidableEq

/-- Modelled from the spec: `KeyHandlerFunc` (the keyed delivery function
`(ctx, delivery) -> error` of Routes) is declared outside src/. -/
def KeyHandlerFunc := Delivery → KOut

/-- Embedding of `errorHandler` (host.go lines 298-308): invoke the keyed
handler; a nil error yields `d.Ack(false)`; a non-nil error logs the
routing key, correlation id and error message then yields
`d.Nack(false, false)`; a panic in the keyed handler escapes before any
acknowledgement. -/
def errorHandler (h : KeyHandlerFunc) : HandlerFunc := fun d =>
  match h d with
  | .ret none => ⟨[], [.ack false], none⟩
  | .ret (some e) => ⟨[.errorKeyLog d.routingKey d.correlationId e], [.nack false false], none⟩
  | .panicked v => ⟨[], [], some v⟩

/-- Embedding of the panic-normalization `switch` of `panicHandler`
(host.go lines 274-281): a string panic becomes an error with that text,
an error panic passes through unchanged, anything else becomes
`errors.New("unknown error")`. -/
def normalizePanic : PanicValue → GoError
  | .str t => t
  | .err e => e
  | .other => "unknown error"

/-- Embedding of `panicHandler` (host.go lines 268-291): run the inner
handler; on a normal return pass its trace through unchanged; on a panic,
recover it, normalize it, log the error and a stack trace, issue
`d.Nack(false, false)`, and return normally (the panic does not escape). -/
def panicHandler (h : HandlerFunc) : HandlerFunc := fun d =>
  let r := h d
  match r.panicVal with
  | none => r
  | some v =>
    ⟨r.log ++ [.panicLog (normalizePanic v), .stackTrace],
     r.outs ++ [.nack false false], none⟩

/-- `HostMiddleware` (host.go line 310): a handler transformer. -/
def HostMiddleware := HandlerFunc → HandlerFunc

/-- A Go slice of middleware as `buildChain` sees it: `arr` is the backing
array from the slice's start up to its capacity (so `arr.length` is
`cap(m)`, and entries past `len` are the zero value `nil`, modelled as
`none`), and `len` is `len(m)`. -/
structure MSlice where
  arr : List (Option HostMiddleware)
  len : Nat

/-- The nesting performed by `buildChain` below the first level, where the
reslicing `m[1:cap(m)]` forces `len = cap`: each entry is applied around
the chain built over the rest, and invoking a `nil` entry panics
(modelled as `none`). -/
def chainAll (f : HandlerFunc) : List (Option HostMiddleware) → Option HandlerFunc
  | [] => some f
  | none :: _ => none
  | some m :: rest => (chainAll f rest).map m

/-- Embedding of `RabbitHost.buildChain` (host.go lines 353-360): if
`len(m) == 0` return `f`; otherwise return `m[0](buildChain(f, m[1:cap(m)]))`.
Because `m[1:cap(m)]` has its length equal to its capacity, every level
after the first nests over the full backing array up to capacity, so a
non-empty slice nests all `cap(m)` entries of `arr`. -/
def buildChain (f : HandlerFunc) (s : MSlice) : Option HandlerFunc :=
  if s.len = 0 then some f else chainAll f s.arr

/-- In-order nesting of a registered middleware list: the first element is
outermost.  This is the intended value of `buildChain` on a slice whose
capacity equals its length. -/
def mwNest (ms : List HostMiddleware) (f : HandlerFunc) : HandlerFunc :=
  ms.foldr (fun m g => m g) f

/-- The slice produced by registering exactly the middleware `ms` when the
backing array has no spare capacity (`cap = len`). -/
def regSlice (ms : List HostMiddleware) : MSlice :=
  ⟨ms.map some, ms.length⟩

/-- A middleware that logs a tag line and then calls the inner handler,
used to observe execution order of the chain. -/
def tagMw (t : String) : HostMiddleware := fun h d =>
  let r := h d
  ⟨.tag t :: r.log, r.outs, r.panicVal⟩

/-- A middleware is outcome-neutral when it neither adds nor removes
acknowledgements and neither raises nor swallows panics — it may do
anything else (e.g. log). -/
def outcomeNeutral (m : HostMiddleware) : Prop :=
  ∀ (h : HandlerFunc) (d : Delivery),
    (m h d).outs = (h d).outs ∧ (m h d).panicVal = (h d).panicVal

/-- The composed per-queue pipeline of host.go lines 161-163 when the
middleware slice has no spare capacity: `panicHandler` around the host
middleware chain around the consumer middleware around `errorHandler`
around the business keyed handler. -/
def composedPipeline (ms : List HostMiddleware) (cmw : HostMiddleware)
    (b : KeyHandlerFunc) : HandlerFunc :=
  panicHandler (mwNest ms (cmw (errorHandler b)))

/-- An opaque broker connection handle (`*amqp.Connection`). -/
abbrev Connection := Nat

/-- An opaque channel handle (`*amqp.Channel`). -/
abbrev Channel := Nat

/-- The observable result of `connect()` once it returns: how many dial
attempts were made, how many retry log events were emitted, the duration
in milliseconds of each sleep taken between attempts, and the stored
connection with the `connected` flag. -/
structure ConnectResult where
  attempts : Nat
  retryLogs : Nat
  delays : List Nat
  connected : Bool
  conn : Connection
deriving DecidableEq

/-- Embedding of the retry loop of `RabbitHost.connect` (host.go lines
314-329), driven by a dial oracle giving each attempt's outcome.  `k` is
the index of the next attempt, `r` the retry log events so far, `ds` the
sleeps taken so far.  On success the loop sets `connected = true`, stores
the connection and breaks; on failure it logs the error and a retry line
and sleeps 200 ms.  The loop has no fatal exit; `fuel` only bounds the
unrolling (a `none` result means the loop is still retrying). -/
def connectLoop (dial : Nat → Except GoError Connection) :
    Nat → Nat → List Nat → Nat → Option ConnectResult
  | _, _, _, 0 => none
  | k, r, ds, fuel + 1 =>
    match dial k with
    | .ok c => some ⟨k + 1, r, ds, true, c⟩
    | .error _ => connectLoop dial (k + 1) (r + 1) (ds ++ [200]) fuel

/-- `connect()` starts the retry loop at the first attempt with no
retries logged and no sleeps taken. -/
def connect (dial : Nat → Except GoError Connection) (fuel : Nat) : Option ConnectResult :=
  connectLoop dial 0 0 [] fuel

/-- How the dead-letter watchdog loop of host.go ended. -/
inductive DLExit where
  /-- the `if h.shutdown { return }` exit (host.go lines 199-201) -/
  | shutdownExit
  /-- the `break` taken when `h.connection.Channel()` fails
  (host.go lines 210-215) -/
  | chanFail
deriving DecidableEq

/-- The observable result of a terminated dead-letter watchdog: why it
ended, at which iteration, and the errors it logged along the way. -/
structure DLResult where
  exitReason : DLExit
  iters : Nat
  logged : List GoError
deriving DecidableEq

/-- Embedding of the per-queue dead-letter watchdog loop (host.go lines
194-221), driven by per-iteration oracles for the shutdown flag, the
channel acquisition and the dead-letter build.  Each iteration: if
shutdown, return; wait for connection and sleep one second (neither
affects control flow); acquire a channel — on error log it, sleep 200 ms
and `break` out of the loop; build the dead-letter queue — on error log
it only; repeat.  `fuel` bounds the unrolling (`none` = still looping). -/
def dlLoop (shutdown : Nat → Bool) (chanRes : Nat → Except GoError Channel)
    (buildRes : Nat → Option GoError) :
    Nat → List GoError → Nat → Option DLResult
  | _, _, 0 => none
  | i, logged, fuel + 1 =>
    if shutdown i then some ⟨.shutdownExit, i, logged⟩
    else
      match chanRes i with
      | .error e => some ⟨.chanFail, i, logged ++ [e]⟩
      | .ok _ =>
        match buildRes i with
        | some e => dlLoop shutdown chanRes buildRes (i + 1) (logged ++ [e]) fuel
        | none => dlLoop shutdown chanRes buildRes (i + 1) logged fuel

/-- The host state fields that `Stop`, `GetConnectionStatus` and the
consumption tasks touch: the `connected` and `shutdown` flags and the
queue-key-to-channel registry (`h.channels`, a map modelled as an
association list with unique keys). -/
structure HostState where
  connected : Bool
  shutdown : Bool
  channels : List (String × Channel)
deriving DecidableEq

/-- Embedding of `RabbitHost.GetConnectionStatus` (host.go lines 262-264). -/
def GetConnectionStatus (s : HostState) : Bool := s.connected

/-- Embedding of `RabbitHost.Stop` (host.go lines 241-260): set
`shutdown = true` and `connected = false`, close every channel currently
in the registry (a broker-side effect that does not modify the map),
wait for all tasks, then close the connection.  No entry is removed from
`h.channels`. -/
def Stop (s : HostState) : HostState :=
  { s with shutdown := true, connected := false }

/-- The `delete(h.channels, key)` map operation (host.go line 185). -/
def mapDelete (key : String) (m : List (String × Channel)) : List (String × Channel) :=
  m.filter (fun p => p.1 ≠ key)

/-- Embedding of a consumption task's reaction to a channel-closed or
queue-cancelled notification (host.go lines 167-187): if `shutdown` is
set the task returns at once — terminating without touching the registry;
otherwise it logs, falls through to `delete(h.channels, key)` and loops
around to reacquire a channel.  The boolean is `true` when the task
terminated. -/
def taskOnNotify (s : HostState) (key : String) : Bool × HostState :=
  if s.shutdown then (true, s)
  else (false, { s with channels := mapDelete key s.channels })

/-- The fate of one per-queue consuming goroutine (host.go lines 151-165)
as a function of the result of `queueChannel.Consume`. -/
inductive ConsumeTaskResult where
  /-- `log.Fatal(err)`: the error is logged and the whole process exits
  (host.go lines 156-158) -/
  | fatalExit (e : GoError)
  /-- consumption started; each delivery of the stream is processed by the
  composed pipeline -/
  | processed (rs : List HRes)

/-- Embedding of the consuming goroutine body (host.go lines 151-165):
if `Consume` returns an error the process is terminated via `log.Fatal`;
otherwise every delivery of the stream is handled by the composed
pipeline. -/
def consumeTask (res : Except GoError (List Delivery)) (pipeline : HandlerFunc) :
    ConsumeTaskResult :=
  match res with
  | .error e => .fatalExit e
  | .ok msgs => .processed (msgs.map pipeline)

/-- Modelled from the spec: `ConsumerConfig` is declared outside src/;
per §3 it carries a name, an exclusivity flag, a no-wait flag, extra
arguments and a dead-letter flag.  Go's zero value for the struct is the
empty default used at host.go line 114. -/
structure ConsumerConfig where
  name : String
  exclusive : Bool
  noWait : Bool
  args : List (String × String)
  hasDeadletter : Bool
deriving DecidableEq

/-- The Go zero value `ConsumerConfig{}` (host.go line 114). -/
def emptyConsumerConfig : ConsumerConfig := ⟨"", false, false, [], false⟩

/-- What `Run` does with one consumer after calling `Init()`. -/
inductive InitOutcome where
  /-- `log.Fatal(err)`: process termination (host.go line 111) -/
  | fatalExit (e : GoError)
  /-- continue setting up this consumer's queues with this config -/
  | proceed (cfg : ConsumerConfig)
deriving DecidableEq

/-- Embedding of the `Init` handling in `Run` (host.go lines 109-115):
a non-nil error is fatal to the process; otherwise a nil config is
replaced by the empty default. -/
def handleInit (cfg : Option ConsumerConfig) (err : Option GoError) : InitOutcome :=
  match err with
  | some e => .fatalExit e
  | none =>
    match cfg with
    | none => .proceed emptyConsumerConfig
    | some c => .proceed c

/-- A handler that always panics with the error value `"boom"`, used as a
concrete business chain in witnesses. -/
def panickyHandler : HandlerFunc := fun _ => ⟨[], [], some (.err "boom")⟩

/-- A dial oracle that fails on the first two attempts and succeeds on
the third, used as a concrete scenario witness. -/
def dialTwiceFail : Nat → Except GoError Connection :=
  fun k => if k < 2 then .error "dial failed" else .ok 7

lemma chainAll_map_some (f : HandlerFunc) (ms : List HostMiddleware) :
    chainAll f (ms.map some) = some (mwNest ms f) := by
  induction ms with
  | nil => rfl
  | cons m rest ih => simp [chainAll, ih, mwNest, List.foldr]

lemma buildChain_regSlice (f : HandlerFunc) (ms : List HostMiddleware) :
    buildChain f (regSlice ms) = some (mwNest ms f) := by
  cases ms with
  | nil => rfl
  | cons m rest =>
      simp only [buildChain, regSlice, List.map, List.length_cons]
      rw [if_neg (Nat.succ_ne_zero _)]
      exact chainAll_map_some f (m :: rest)

lemma mwNest_neutral (ms : List HostMiddleware)
    (hms : ∀ m ∈ ms, outcomeNeutral m) (f : HandlerFunc) (d : Delivery) :
    (mwNest ms f d).outs = (f d).outs ∧ (mwNest ms f d).panicVal = (f d).panicVal := by
  induction ms with
  | nil => exact ⟨rfl, rfl⟩
  | cons m rest ih =>
      have hm : outcomeNeutral m := hms m (List.mem_cons_self m rest)
      have hrest : ∀ x ∈ rest, outcomeNeutral x := fun x hx => hms x (List.mem_cons_of_mem m hx)
      have h1 := hm (mwNest rest f) d
      have h2 := ih hrest
      exact ⟨h1.1.trans h2.1, h1.2.trans h2.2⟩

lemma tagMw_neutral (t : String) : outcomeNeutral (tagMw t) :=
  fun _ _ => ⟨rfl, rfl⟩

lemma panicHandler_of_none (h : HandlerFunc) (d : Delivery)
    (hp : (h d).panicVal = none) : panicHandler h d = h d := by
  simp [panicHandler, hp]

lemma panicHandler_of_some (h : HandlerFunc) (d : Delivery) (v : PanicValue)
    (hp : (h d).panicVal = some v) :
    panicHandler h d
      = ⟨(h d).log ++ [.panicLog (normalizePanic v), .stackTrace],
         (h d).outs ++ [.nack false false], none⟩ := by
  simp [panicHandler, hp]

lemma connectLoop_first_success (dial : Nat → Except GoError Connection) (n : Nat)
    (c : Connection) (hfail : ∀ m, m < n → ∃ e, dial m = .error e)
    (hok : dial n = .ok c) :
    ∀ (fuel k r : Nat) (ds : List Nat), k ≤ n → n - k < fuel →
      connectLoop dial k r ds fuel
        = some ⟨n + 1, r + (n - k), ds ++ List.replicate (n - k) 200, true, c⟩ := by
  intro fuel
  induction fuel with
  | zero => intro k r ds _ hlt; exact absurd hlt (Nat.not_lt_zero _)
  | succ fuel ih =>
    intro k r ds hk hlt
    rcases Nat.lt_or_ge k n with hkn | hkn
    · obtain ⟨e, he⟩ := hfail k hkn
      have hstep : connectLoop dial k r ds (fuel + 1)
          = connectLoop dial (k + 1) (r + 1) (ds ++ [200]) fuel := by
        simp [connectLoop, he]
      rw [hstep, ih (k + 1) (r + 1) (ds ++ [200]) hkn (by omega)]
      have h1 : n - k = (n - (k + 1)) + 1 := by omega
      have h2 : (r + 1) + (n - (k + 1)) = r + (n - k) := by omega
      have h3 : (ds ++ [200]) ++ List.replicate (n - (k + 1)) 200
          = ds ++ List.replicate (n - k) 200 := by
        rw [h1, List.replicate_succ, List.append_assoc, List.singleton_append]
      rw [h2, h3]
    · have hke : k = n := le_antisymm hk hkn
      subst hke
      simp [connectLoop, hok]

/-- Claim C4: host-wide middleware registered in order [A, B] wraps the
error/ack-nack adapter with A outermost, so A's effect happens before B's
on every message; in general the chain built from a registered list is
its in-order nesting, first registered outermost. -/
theorem middleware_wrap_order (ta tb : String) (b : KeyHandlerFunc) (d : Delivery)
    (ms : List HostMiddleware) :
    buildChain (errorHandler b) (regSlice ms) = some (mwNest ms (errorHandler b)) ∧
    mwNest [tagMw ta, tagMw tb] (errorHandler b) d
      = ⟨.tag ta :: .tag tb :: (errorHandler b d).log,
         (errorHandler b d).outs, (errorHandler b d).panicVal⟩ :=
  ⟨buildChain_regSlice _ ms, rfl⟩

/-- Claim C5: the panic-containment wrapper recovers every panic of the
chain beneath it, normalizes it (string panic becomes an error with that
text, an error panic passes through unchanged, any other value becomes
"unknown error"), logs the error and a stack trace, nacks the delivery
with requeue = false, and always returns normally. -/
theorem panic_containment (h : HandlerFunc) (d : Delivery) (v : PanicValue)
    (s : String) (e : GoError) :
    (panicHandler h d).panicVal = none ∧
    ((h d).panicVal = some v →
      panicHandler h d
        = ⟨(h d).log ++ [.panicLog (normalizePanic v), .stackTrace],
           (h d).outs ++ [.nack false false], none⟩) ∧
    ((h d).panicVal = none → panicHandler h d = h d) ∧
    normalizePanic (.str s) = s ∧
    normalizePanic (.err e) = e ∧
    normalizePanic .other = "unknown error" := by
  refine ⟨?_, ?_, ?_, rfl, rfl, rfl⟩
  · cases hp : (h d).panicVal with
    | none => rw [panicHandler_of_none h d hp, hp]
    | some w => rw [panicHandler_of_some h d w hp]
  · intro hp; exact panicHandler_of_some h d v hp
  · intro hp; exact panicHandler_of_none h d hp

/-- Claim C5 witness: a chain that panics with the error value "boom"
yields exactly the panic log, the stack trace and a Nack(false, false). -/
theorem panic_containment_witness :
    (panickyHandler ⟨"rk", "cid"⟩).panicVal = some (.err "boom") ∧
    panicHandler panickyHandler ⟨"rk", "cid"⟩
      = ⟨[.panicLog "boom", .stackTrace], [.nack false false], none⟩ := by
  have h := (panic_containment panickyHandler ⟨"rk", "cid"⟩ (.err "boom") "" "").2.1 rfl
  exact ⟨rfl, by simpa [panickyHandler, normalizePanic] using h⟩

/-- Claim C6: the error/ack-nack adapter acks with multiple = false on a
nil result, and on a non-nil result nacks with multiple = false and
requeue = false, logging the routing key, correlation id and error. -/
theorem errorHandler_ack_nack (b : KeyHandlerFunc) (d : Delivery) :
    (b d = .ret none → errorHandler b d = ⟨[], [.ack false], none⟩) ∧
    (∀ e, b d = .ret (some e) →
      errorHandler b d
        = ⟨[.errorKeyLog d.routingKey d.correlationId e],
           [.nack false false], none⟩) := by
  constructor
  · intro hb; simp [errorHandler, hb]
  · intro e hb; simp [errorHandler, hb]

/-- Claim C6 witness: concrete nil-returning and error-returning business
handlers around a concrete delivery. -/
theorem errorHandler_ack_nack_witness :
    errorHandler (fun _ => .ret none) ⟨"rk", "cid"⟩ = ⟨[], [.ack false], none⟩ ∧
    errorHandler (fun _ => .ret (some "boom")) ⟨"rk", "cid"⟩
      = ⟨[.errorKeyLog "rk" "cid" "boom"], [.nack false false], none⟩ :=
  ⟨(errorHandler_ack_nack (fun _ => .ret none) ⟨"rk", "cid"⟩).1 rfl,
   (errorHandler_ack_nack (fun _ => .ret (some "boom")) ⟨"rk", "cid"⟩).2 "boom" rfl⟩

/-- Claim C8: if registering the consumer (the `Consume` call) fails, the
consuming task ends in `log.Fatal`, terminating the whole process — there
is no retry branch and the failure is not scoped to the queue; on success
the stream is processed by the pipeline. -/
theorem consume_error_process_fatal (e : GoError) (pipeline : HandlerFunc)
    (msgs : List Delivery) :
    consumeTask (Except.error e) pipeline = .fatalExit e ∧
    consumeTask (Except.ok msgs) pipeline = .processed (msgs.map pipeline) :=
  ⟨rfl, rfl⟩

/-- Claim C9: buildChain returns the handler unchanged for an empty slice
(even with spare capacity holding nil), and for a slice whose capacity
equals its length it equals the in-order nesting of the registered
middleware, never invoking a nil function; with spare capacity beyond the
length, the recursion runs to capacity and hits a nil entry. -/
theorem buildChain_capacity_precondition (f : HandlerFunc) (ms : List HostMiddleware)
    (A : HostMiddleware) :
    buildChain f (regSlice ms) = some (mwNest ms f) ∧
    buildChain f ⟨[], 0⟩ = some f ∧
    buildChain f ⟨[none], 0⟩ = some f ∧
    buildChain f ⟨[some A, none], 1⟩ = none := by
  refine ⟨buildChain_regSlice f ms, rfl, rfl, ?_⟩
  simp [buildChain, chainAll]

/-- Claim C10: at the Run boundary, a non-nil Init error is fatal to the
process regardless of the returned config, and a nil config with a nil
error is replaced by the empty default ConsumerConfig. -/
theorem init_error_fatal_nil_default (cfg : Option ConsumerConfig) (e : GoError)
    (c : ConsumerConfig) :
    handleInit cfg (some e) = .fatalExit e ∧
    handleInit none none = .proceed emptyConsumerConfig ∧
    handleInit (some c) none = .proceed c := by
  refine ⟨?_, rfl, rfl⟩
  cases cfg <;> rfl

/-- Claim C1: for every delivery processed by the composed pipeline
(panic wrapper around outcome-neutral middleware around the error/ack-nack
adapter around the business handler), exactly one acknowledgement outcome
is produced and no panic escapes, in each of the three cases: the business
handler returns nil (one Ack), returns a non-nil error (one Nack), or
panics (one Nack). -/
theorem pipeline_exactly_one_outcome (ms : List HostMiddleware) (cmw : HostMiddleware)
    (b : KeyHandlerFunc) (d : Delivery)
    (hms : ∀ m ∈ ms, outcomeNeutral m) (hc : outcomeNeutral cmw) :
    (composedPipeline ms cmw b d).outs.length = 1 ∧
    (composedPipeline ms cmw b d).panicVal = none ∧
    (b d = .ret none → (composedPipeline ms cmw b d).outs = [.ack false]) ∧
    (∀ e, b d = .ret (some e) → (composedPipeline ms cmw b d).outs = [.nack false false]) ∧
    (∀ v, b d = .panicked v → (composedPipeline ms cmw b d).outs = [.nack false false]) := by
  have hg := hc (errorHandler b) d
  have hi := mwNest_neutral ms hms (cmw (errorHandler b)) d
  have ho : (mwNest ms (cmw (errorHandler b)) d).outs = (errorHandler b d).outs :=
    hi.1.trans hg.1
  have hp : (mwNest ms (cmw (errorHandler b)) d).panicVal = (errorHandler b d).panicVal :=
    hi.2.trans hg.2
  cases hb : b d with
  | ret eo =>
    cases eo with
    | none =>
      have he : errorHandler b d = ⟨[], [.ack false], none⟩ := by simp [errorHandler, hb]
      have hpv : (mwNest ms (cmw (errorHandler b)) d).panicVal = none := by rw [hp, he]
      have hou : (mwNest ms (cmw (errorHandler b)) d).outs = [.ack false] := by rw [ho, he]
      have hres : composedPipeline ms cmw b d = mwNest ms (cmw (errorHandler b)) d :=
        panicHandler_of_none _ d hpv
      refine ⟨?_, ?_, ?_, ?_, ?_⟩
      · rw [hres, hou]; rfl
      · rw [hres, hpv]
      · intro _; rw [hres, hou]
      · intro e2 hb2; simp at hb2
      · intro v2 hb2; simp at hb2
    | some e =>
      have he : errorHandler b d
          = ⟨[.errorKeyLog d.routingKey d.correlationId e], [.nack false false], none⟩ := by
        simp [errorHandler, hb]
      have hpv : (mwNest ms (cmw (errorHandler b)) d).panicVal = none := by rw [hp, he]
      have hou : (mwNest ms (cmw (errorHandler b)) d).outs = [.nack false false] := by
        rw [ho, he]
      have hres : composedPipeline ms cmw b d = mwNest ms (cmw (errorHandler b)) d :=
        panicHandler_of_none _ d hpv
      refine ⟨?_, ?_, ?_, ?_, ?_⟩
      · rw [hres, hou]; rfl
      · rw [hres, hpv]
      · intro hb2; simp at hb2
      · intro e2 hb2; rw [hres, hou]
      · intro v2 hb2; simp at hb2
  | panicked v =>
    have he : errorHandler b d = ⟨[], [], some v⟩ := by simp [errorHandler, hb]
    have hpv : (mwNest ms (cmw (errorHandler b)) d).panicVal = some v := by rw [hp, he]
    have hou : (mwNest ms (cmw (errorHandler b)) d).outs = [] := by rw [ho, he]
    have hres := panicHandler_of_some (mwNest ms (cmw (errorHandler b))) d v hpv
    have hres2 : composedPipeline ms cmw b d
        = ⟨(mwNest ms (cmw (errorHandler b)) d).log
             ++ [.panicLog (normalizePanic v), .stackTrace],
           (mwNest ms (cmw (errorHandler b)) d).outs ++ [.nack false false], none⟩ := hres
    refine ⟨?_, ?_, ?_, ?_, ?_⟩
    · rw [hres2]; simp [hou]
    · rw [hres2]
    · intro hb2; simp at hb2
    · intro e2 hb2; simp at hb2
    · intro v2 hb2; rw [hres2]; simp [hou]

/-- Claim C1 witness: one tagging host middleware, one tagging consumer
middleware and a panicking business handler on a concrete delivery still
produce exactly one outcome and no escaping panic. -/
theorem pipeline_exactly_one_outcome_witness :
    (composedPipeline [tagMw "A"] (tagMw "C") (fun _ => .panicked (.err "boom"))
        ⟨"rk", "cid"⟩).outs.length = 1 ∧
    (composedPipeline [tagMw "A"] (tagMw "C") (fun _ => .panicked (.err "boom"))
        ⟨"rk", "cid"⟩).panicVal = none ∧
    (composedPipeline [tagMw "A"] (tagMw "C") (fun _ => .panicked (.err "boom"))
        ⟨"rk", "cid"⟩).outs = [.nack false false] := by
  have h := pipeline_exactly_one_outcome [tagMw "A"] (tagMw "C")
    (fun _ => .panicked (.err "boom")) ⟨"rk", "cid"⟩
    (by
      intro m hm
      have hm2 : m = tagMw "A" := by simpa using hm
      rw [hm2]; exact tagMw_neutral "A")
    (tagMw_neutral "C")
  exact ⟨h.1, h.2.1, h.2.2.2.2 (.err "boom") rfl⟩

/-- Claim C7: connect retries dialing until the first success, emitting
one retry log and one 200 ms sleep per failed attempt, and sets
connected = true and stores the connection exactly at the first successful
attempt; the loop has no fatal exit. -/
theorem connect_retries_until_success (dial : Nat → Except GoError Connection)
    (n : Nat) (c : Connection) (fuel : Nat)
    (hfail : ∀ m, m < n → ∃ e, dial m = .error e)
    (hok : dial n = .ok c) (hfuel : n < fuel) :
    connect dial fuel = some ⟨n + 1, n, List.replicate n 200, true, c⟩ := by
  have h := connectLoop_first_success dial n c hfail hok fuel 0 0 []
    (Nat.zero_le n) (by omega)
  simpa using h

/-- Claim C7 witness: the dial oracle failing twice then succeeding makes
connected true only after the third attempt, with two retry logs and two
200 ms sleeps. -/
theorem connect_retries_until_success_witness :
    (∀ m, m < 2 → ∃ e, dialTwiceFail m = Except.error e) ∧
    dialTwiceFail 2 = Except.ok 7 ∧
    connect dialTwiceFail 10 = some ⟨3, 2, [200, 200], true, 7⟩ := by
  have hfail : ∀ m, m < 2 → ∃ e, dialTwiceFail m = Except.error e := by
    intro m hm
    refine ⟨"dial failed", ?_⟩
    unfold dialTwiceFail
    rw [if_pos hm]
  have h := connect_retries_until_success dialTwiceFail 2 7 10 hfail rfl (by omega)
  exact ⟨hfail, rfl, by simpa using h⟩

/-- Claim C2 counterexample: with one active queue, after Stop the
connection status is false but the registry still holds the queue's entry,
and the consumption task terminating on the shutdown notification returns
without removing it — the registry is not empty. -/
theorem stop_registry_counterexample :
    GetConnectionStatus (Stop ⟨true, false, [("orders", 1)]⟩) = false ∧
    taskOnNotify (Stop ⟨true, false, [("orders", 1)]⟩) "orders"
      = (true, ⟨false, true, [("orders", 1)]⟩) ∧
    (Stop ⟨true, false, [("orders", 1)]⟩).channels ≠ [] := by
  refine ⟨rfl, ?_, by decide⟩
  rfl

/-- Claim C2 amended: after Stop returns, GetConnectionStatus() is false,
but the registry keeps every entry it had: Stop closes channels without
deleting their entries, and a task terminating because shutdown is set
returns before the delete; an entry is removed only on the non-shutdown
retry path. -/
theorem stop_amended (s : HostState) (key : String) :
    GetConnectionStatus (Stop s) = false ∧
    (Stop s).channels = s.channels ∧
    taskOnNotify (Stop s) key = (true, Stop s) ∧
    (s.shutdown = false →
      taskOnNotify s key = (false, { s with channels := mapDelete key s.channels })) := by
  refine ⟨rfl, rfl, ?_, ?_⟩
  · simp [taskOnNotify, Stop]
  · intro h; simp [taskOnNotify, h]

/-- Claim C2 amended witness: a concrete pre-shutdown state where the
notification deletes the entry, and the post-Stop state where the task
terminates leaving the entry in place. -/
theorem stop_amended_witness :
    (⟨true, false, [("q", 0)]⟩ : HostState).shutdown = false ∧
    taskOnNotify ⟨true, false, [("q", 0)]⟩ "q" = (false, ⟨true, false, []⟩) ∧
    taskOnNotify (Stop ⟨true, false, [("q", 0)]⟩) "q"
      = (true, Stop ⟨true, false, [("q", 0)]⟩) := by
  have h1 := (stop_amended ⟨true, false, [("q", 0)]⟩ "q").2.2.2 rfl
  have h2 := (stop_amended ⟨true, false, [("q", 0)]⟩ "q").2.2.1
  refine ⟨rfl, ?_, h2⟩
  rw [h1]
  decide

/-- Claim C3: the dead-letter watchdog loop terminates on a
channel-acquisition failure even though shutdown is never set (the `break`
at host.go line 214), while a build failure is only logged and the loop
continues until shutdown. -/
theorem dl_channel_failure_terminates_loop :
    dlLoop (fun _ => false) (fun _ => Except.error "channel error") (fun _ => none) 0 [] 5
      = some ⟨DLExit.chanFail, 0, ["channel error"]⟩ ∧
    dlLoop (fun i => decide (1 ≤ i)) (fun _ => Except.ok 3) (fun _ => some "build error") 0 [] 5
      = some ⟨DLExit.shutdownExit, 1, ["build error"]⟩ := by
  constructor
  · rfl
  · rfl
